import Mathlib

/-!
Verification of the data-aggregation and report-derivation layer of the
higher-education finance dashboard (`streamlit_app.py`).

The embedding models:
- the transaction rows loaded from the row-filtered view (`load_finance_data`);
- the filter pipeline of `main` (year / category / department selection);
- the chart aggregations `create_trend_chart`, `create_category_breakdown`,
  `create_department_comparison`;
- the insight derivation (year-over-year growth, top department, monthly
  seasonality) shared by `main` and `generate_complete_dashboard_html`;
- the report assembly `generate_complete_dashboard_html`.

Machine floats are modelled by exact rationals extended with the IEEE
special values `inf`, `-inf`, `nan` (the source suppresses numpy warnings,
so float division by zero silently produces those values).  Python list
indexing (which accepts negative indices) is modelled by `pyIndex`.
-/

/-- One row of the `VW_FINANCE_DATA` view, as loaded by `load_finance_data`.
`transaction_date` is modelled as an ordinal day number. -/
structure Transaction where
  department_name : String
  department_code : String
  transaction_date : Int
  expenditure_category : String
  amount : ℚ
  fiscal_year : Int
  fiscal_month : Int
  director_name : Option String
  director_start_date : Int
  is_current_director : Bool
deriving DecidableEq, Repr

/-- The user's current filter selection (`selected_years`,
`selected_categories`, `selected_department` in `main`); the department
selectbox offers `"All"` plus the visible department names. -/
structure Selection where
  years : List Int
  categories : List String
  department : String
deriving DecidableEq, Repr

/-! ### Sorting (models pandas `sort_index` / `sort_values` / `sorted`) -/

/-- Insert an element into a list in front of the first element it compares
`le` to. -/
def insertSorted (le : α → α → Bool) (a : α) : List α → List α
  | [] => [a]
  | b :: l => if le a b then a :: b :: l else b :: insertSorted le a l

/-- Insertion sort by the boolean comparison `le`. -/
def sortBy (le : α → α → Bool) : List α → List α
  | [] => []
  | a :: l => insertSorted le a (sortBy le l)

theorem insertSorted_perm (le : α → α → Bool) (a : α) :
    ∀ l : List α, List.Perm (insertSorted le a l) (a :: l) := by
  intro l
  induction l with
  | nil => simp [insertSorted]
  | cons b l ih =>
    simp only [insertSorted]
    by_cases h : le a b
    · simp [h]
    · rw [if_neg h]
      exact List.Perm.trans (List.Perm.cons b ih) (List.Perm.swap a b l)

theorem sortBy_perm (le : α → α → Bool) : ∀ l : List α, List.Perm (sortBy le l) l := by
  intro l
  induction l with
  | nil => simp [sortBy]
  | cons a l ih =>
    exact List.Perm.trans (insertSorted_perm le a (sortBy le l)) (List.Perm.cons a ih)

theorem mem_insertSorted {le : α → α → Bool} {a x : α} {l : List α} :
    x ∈ insertSorted le a l ↔ x = a ∨ x ∈ l := by
  rw [(insertSorted_perm le a l).mem_iff]
  simp

theorem mem_sortBy {le : α → α → Bool} {x : α} {l : List α} :
    x ∈ sortBy le l ↔ x ∈ l := (sortBy_perm le l).mem_iff

theorem length_sortBy (le : α → α → Bool) (l : List α) :
    (sortBy le l).length = l.length := (sortBy_perm le l).length_eq

theorem nodup_sortBy {le : α → α → Bool} {l : List α} (h : l.Nodup) :
    (sortBy le l).Nodup := ((sortBy_perm le l).nodup_iff).mpr h

theorem pairwise_insertSorted {le : α → α → Bool}
    (htrans : ∀ a b c, le a b = true → le b c = true → le a c = true)
    (htotal : ∀ a b, le a b = true ∨ le b a = true)
    (a : α) : ∀ l : List α, l.Pairwise (fun x y => le x y = true) →
      (insertSorted le a l).Pairwise (fun x y => le x y = true) := by
  intro l
  induction l with
  | nil => intro _; simp [insertSorted]
  | cons b l ih =>
    intro hp
    rw [List.pairwise_cons] at hp
    obtain ⟨hb, hl⟩ := hp
    simp only [insertSorted]
    by_cases h : le a b
    · rw [if_pos h, List.pairwise_cons]
      refine ⟨?_, by rw [List.pairwise_cons]; exact ⟨hb, hl⟩⟩
      intro x hx
      rcases List.mem_cons.mp hx with hx | hx
      · rw [hx]; exact h
      · exact htrans a b x h (hb x hx)
    · rw [if_neg h, List.pairwise_cons]
      have hba : le b a = true := by
        rcases htotal a b with h1 | h1
        · exact absurd h1 h
        · exact h1
      refine ⟨?_, ih hl⟩
      intro x hx
      rw [mem_insertSorted] at hx
      rcases hx with hx | hx
      · rw [hx]; exact hba
      · exact hb x hx

theorem pairwise_sortBy {le : α → α → Bool}
    (htrans : ∀ a b c, le a b = true → le b c = true → le a c = true)
    (htotal : ∀ a b, le a b = true ∨ le b a = true) :
    ∀ l : List α, (sortBy le l).Pairwise (fun x y => le x y = true) := by
  intro l
  induction l with
  | nil => simp [sortBy]
  | cons a l ih => exact pairwise_insertSorted htrans htotal a (sortBy le l) ih

/-! ### Machine floats

The source computes on pandas float64 columns with warnings suppressed, so
`x / 0.0` yields `inf` / `-inf` / `nan` rather than raising. -/

/-- A float64 value: an exact rational, or one of the IEEE special values. -/
inductive PyFloat where
  | fin (q : ℚ)
  | inf
  | ninf
  | nan
deriving DecidableEq, Repr

/-- Float division as numpy performs it (no exception on a zero divisor). -/
def fdiv (a b : ℚ) : PyFloat :=
  if b = 0 then (if 0 < a then PyFloat.inf else if a < 0 then PyFloat.ninf else PyFloat.nan)
  else PyFloat.fin (a / b)

/-- Multiplication of an extended value by the positive constant 100
(the `* 100` applied to the growth ratio). -/
def extTimes100 : PyFloat → PyFloat
  | PyFloat.fin q => PyFloat.fin (q * 100)
  | PyFloat.inf => PyFloat.inf
  | PyFloat.ninf => PyFloat.ninf
  | PyFloat.nan => PyFloat.nan

/-! ### Python / pandas ordering helpers -/

/-- Code-point lexicographic comparison of character lists. -/
def lexLe : List Char → List Char → Bool
  | [], _ => true
  | _ :: _, [] => false
  | a :: as, b :: bs =>
    if a.val < b.val then true
    else if b.val < a.val then false
    else lexLe as bs

/-- Python string comparison (code-point lexicographic), used by `sorted`
and by pandas when it sorts group keys. -/
def strLe (a b : String) : Bool := lexLe a.data b.data

/-- Ascending comparison on integers. -/
def intLe (a b : Int) : Bool := decide (a ≤ b)

/-- Lexicographic comparison on (fiscal_year, fiscal_month) keys. -/
def ymLe (a b : Int × Int) : Bool :=
  decide (a.1 < b.1) || (decide (a.1 = b.1) && decide (a.2 ≤ b.2))

/-- Lexicographic comparison on (department_name, fiscal_year) keys. -/
def dyLe (a b : String × Int) : Bool :=
  if a.1 = b.1 then decide (a.2 ≤ b.2) else strLe a.1 b.1

/-! ### Grouping (models `df.groupby(keys)['AMOUNT'].sum()` / `.mean()`)

pandas `groupby` emits one output row per distinct key, with the keys
sorted ascending. -/

/-- `groupby(key)['AMOUNT'].sum()`: one `(key, sum-of-amounts)` pair per
distinct key of `rows`, keys sorted by `le`. -/
def groupSums {κ : Type} [DecidableEq κ] (le : κ → κ → Bool)
    (key : Transaction → κ) (rows : List Transaction) : List (κ × ℚ) :=
  (sortBy le ((rows.map key).dedup)).map
    (fun k => (k, ((rows.filter (fun r => key r = k)).map (fun r => r.amount)).sum))

/-- `groupby(key)['AMOUNT'].mean()`: one `(key, mean-of-amounts)` pair per
distinct key of `rows` (a group is never empty, so the mean is finite). -/
def groupMeans {κ : Type} [DecidableEq κ] (le : κ → κ → Bool)
    (key : Transaction → κ) (rows : List Transaction) : List (κ × PyFloat) :=
  (sortBy le ((rows.map key).dedup)).map
    (fun k =>
      let g := rows.filter (fun r => key r = k)
      (k, fdiv ((g.map (fun r => r.amount)).sum) (g.length : ℚ)))

theorem sum_map_filter_split (f : α → ℚ) (p : α → Bool) :
    ∀ l : List α,
      ((l.filter p).map f).sum + ((l.filter (fun a => !p a)).map f).sum
        = (l.map f).sum := by
  intro l
  induction l with
  | nil => simp
  | cons a l ih =>
    by_cases h : p a <;>
      simp only [List.filter_cons, h, Bool.not_true, Bool.not_false, if_pos, if_neg,
        Bool.false_eq_true, not_false_eq_true, List.map_cons, List.sum_cons, ite_true,
        ite_false] <;> linarith [ih]

theorem sum_fiber {κ : Type} [DecidableEq κ] (key : α → κ) (f : α → ℚ) :
    ∀ ks : List κ, ks.Nodup → ∀ rows : List α, (∀ r ∈ rows, key r ∈ ks) →
      (ks.map (fun k => ((rows.filter (fun r => key r = k)).map f).sum)).sum
        = (rows.map f).sum := by
  intro ks
  induction ks with
  | nil =>
    intro _ rows hmem
    cases rows with
    | nil => simp
    | cons r t => exact absurd (hmem r (List.mem_cons_self r t)) (List.not_mem_nil (key r))
  | cons k ks ih =>
    intro hnd rows hmem
    rw [List.nodup_cons] at hnd
    obtain ⟨hk, hnd'⟩ := hnd
    set B := rows.filter (fun r => !decide (key r = k)) with hB
    have hfib : ∀ k' ∈ ks,
        ((rows.filter (fun r => key r = k')).map f).sum
          = ((B.filter (fun r => key r = k')).map f).sum := by
      intro k' hk'
      have hkk' : k' ≠ k := fun h => hk (h ▸ hk')
      rw [hB, List.filter_filter]
      refine congrArg _ (congrArg _ (List.filter_congr ?_))
      intro r _
      by_cases hr : key r = k'
      · simp [hr, hkk']
      · simp [hr]
    have hmem' : ∀ r ∈ B, key r ∈ ks := by
      intro r hr
      rw [hB, List.mem_filter] at hr
      obtain ⟨hr1, hr2⟩ := hr
      have := hmem r hr1
      rw [List.mem_cons] at this
      rcases this with h | h
      · rw [h] at hr2; simp at hr2
      · exact h
    have hrec : (ks.map (fun k' => ((rows.filter (fun r => key r = k')).map f).sum)).sum
        = (B.map f).sum := by
      rw [List.map_congr_left hfib]
      exact ih hnd' B hmem'
    simp only [List.map_cons, List.sum_cons, hrec]
    exact sum_map_filter_split f (fun r => decide (key r = k)) rows

theorem groupSums_keys {κ : Type} [DecidableEq κ] (le : κ → κ → Bool)
    (key : Transaction → κ) (rows : List Transaction) :
    (groupSums le key rows).map Prod.fst = sortBy le ((rows.map key).dedup) := by
  rw [groupSums, List.map_map]
  exact List.map_id _

theorem groupSums_keys_nodup {κ : Type} [DecidableEq κ] (le : κ → κ → Bool)
    (key : Transaction → κ) (rows : List Transaction) :
    ((groupSums le key rows).map Prod.fst).Nodup := by
  rw [groupSums_keys]
  exact nodup_sortBy (List.nodup_dedup _)

theorem groupSums_mem_keys {κ : Type} [DecidableEq κ] {le : κ → κ → Bool}
    {key : Transaction → κ} {rows : List Transaction} {k : κ} :
    k ∈ (groupSums le key rows).map Prod.fst ↔ ∃ r ∈ rows, key r = k := by
  rw [groupSums_keys, mem_sortBy, List.mem_dedup, List.mem_map]

theorem mem_groupSums {κ : Type} [DecidableEq κ] {le : κ → κ → Bool}
    {key : Transaction → κ} {rows : List Transaction} {p : κ × ℚ}
    (h : p ∈ groupSums le key rows) :
    p.2 = ((rows.filter (fun r => key r = p.1)).map (fun r => r.amount)).sum := by
  rw [groupSums] at h
  obtain ⟨k, _, hk⟩ := List.mem_map.mp h
  rw [← hk]

theorem groupSums_sum {κ : Type} [DecidableEq κ] (le : κ → κ → Bool)
    (key : Transaction → κ) (rows : List Transaction) :
    ((groupSums le key rows).map Prod.snd).sum = (rows.map (fun r => r.amount)).sum := by
  rw [groupSums, List.map_map]
  have hperm : List.Perm
      ((sortBy le ((rows.map key).dedup)).map
        (fun k => ((rows.filter (fun r => key r = k)).map (fun r => r.amount)).sum))
      (((rows.map key).dedup).map
        (fun k => ((rows.filter (fun r => key r = k)).map (fun r => r.amount)).sum)) :=
    (sortBy_perm le ((rows.map key).dedup)).map _
  calc ((sortBy le ((rows.map key).dedup)).map
          (Prod.snd ∘ fun k => (k, ((rows.filter (fun r => key r = k)).map (fun r => r.amount)).sum))).sum
      = ((sortBy le ((rows.map key).dedup)).map
          (fun k => ((rows.filter (fun r => key r = k)).map (fun r => r.amount)).sum)).sum := rfl
    _ = (((rows.map key).dedup).map
          (fun k => ((rows.filter (fun r => key r = k)).map (fun r => r.amount)).sum)).sum :=
        hperm.sum_eq
    _ = (rows.map (fun r => r.amount)).sum := by
        refine sum_fiber key (fun r => r.amount) _ (List.nodup_dedup _) rows ?_
        intro r hr
        exact List.mem_dedup.mpr (List.mem_map.mpr ⟨r, hr, rfl⟩)

/-! ### Filtering (the `Apply filters` block of `main`, lines 846-856)

The source applies the year filter, then the category filter, then the
department filter, each guarded: an empty year / category selection or the
department choice `"All"` leaves the frame untouched at that stage. -/

/-- The sequential filter pipeline of `main`. -/
def filterTransactions (T : List Transaction) (S : Selection) : List Transaction :=
  let t1 := if S.years = [] then T else T.filter (fun r => r.fiscal_year ∈ S.years)
  let t2 := if S.categories = [] then t1
    else t1.filter (fun r => r.expenditure_category ∈ S.categories)
  if S.department = "All" then t2
  else t2.filter (fun r => r.department_name = S.department)

/-- The conjunction of the three guarded filter predicates. -/
def selPred (S : Selection) (r : Transaction) : Bool :=
  (decide (S.years = []) || decide (r.fiscal_year ∈ S.years)) &&
  (decide (S.categories = []) || decide (r.expenditure_category ∈ S.categories)) &&
  (decide (S.department = "All") || decide (r.department_name = S.department))

theorem filterTransactions_eq_filter (T : List Transaction) (S : Selection) :
    filterTransactions T S = T.filter (selPred S) := by
  unfold filterTransactions selPred
  by_cases hy : S.years = [] <;> by_cases hc : S.categories = [] <;>
    by_cases hd : S.department = "All" <;>
      simp [hy, hc, hd, List.filter_filter, Bool.and_assoc, Bool.and_comm, Bool.and_left_comm]

/-! ### Chart results

Every chart function returns the "No data available" annotation figure when
its input frame is empty, otherwise a figure whose embedded series we model
directly. -/

/-- A chart: either the "No data available" sentinel figure or its series. -/
inductive Chart (α : Type) where
  | noData
  | data (a : α)
deriving DecidableEq, Repr

/-- The guarded category restriction at the head of `create_trend_chart`
(`if category_filter and len(category_filter) > 0`). -/
def catRestrict (df : List Transaction) (category_filter : List String) :
    List Transaction :=
  if category_filter = [] then df
  else df.filter (fun r => r.expenditure_category ∈ category_filter)

/-- The guarded year restriction at the head of `create_category_breakdown`
(`if year_filter and len(year_filter) > 0`). -/
def yearRestrict (df : List Transaction) (year_filter : List Int) :
    List Transaction :=
  if year_filter = [] then df
  else df.filter (fun r => r.fiscal_year ∈ year_filter)

/-- One point of the trend series: the synthesized date
(`FISCAL_YEAR-FISCAL_MONTH-01`) and the summed amount. -/
structure TrendPoint where
  year : Int
  month : Int
  day : Int
  amount : ℚ
deriving DecidableEq, Repr

/-- `create_trend_chart`: empty-frame sentinel, else group the (optionally
category-restricted) rows by (fiscal_year, fiscal_month), sum the amounts and
stamp the first day of the month as the date. -/
def create_trend_chart (df : List Transaction) (category_filter : List String) :
    Chart (List TrendPoint) :=
  if df = [] then Chart.noData
  else
    Chart.data
      ((groupSums ymLe (fun r => (r.fiscal_year, r.fiscal_month))
          (catRestrict df category_filter)).map
        (fun p => { year := p.1.1, month := p.1.2, day := 1, amount := p.2 }))

/-- `create_category_breakdown`: empty-frame sentinel, else group the
(optionally year-restricted) rows by expenditure category and sum. -/
def create_category_breakdown (df : List Transaction) (year_filter : List Int) :
    Chart (List (String × ℚ)) :=
  if df = [] then Chart.noData
  else
    Chart.data (groupSums strLe (fun r => r.expenditure_category)
      (yearRestrict df year_filter))

/-- `create_department_comparison`: empty-frame sentinel, else group by
(department, fiscal_year) and sum. -/
def create_department_comparison (df : List Transaction) :
    Chart (List ((String × Int) × ℚ)) :=
  if df = [] then Chart.noData
  else
    Chart.data (groupSums dyLe (fun r => (r.department_name, r.fiscal_year)) df)

/-- `sorted(df['DEPARTMENT_NAME'].unique())`: the distinct department names
of a frame, sorted. -/
def visibleDepartments (rows : List Transaction) : List String :=
  sortBy strLe ((rows.map (fun r => r.department_name)).dedup)

/-- The guard of the department-comparison block of `main` (line 1030):
the chart is rendered only when more than one department is visible in the
loaded data. -/
def showDeptComparison (finance_data : List Transaction) : Bool :=
  decide (1 < (visibleDepartments finance_data).length)

/-! ### Monthly seasonality and the month-name lookup -/

/-- The literal month-name list of the seasonality blocks. -/
def monthNames : List String :=
  ["Jan", "Feb", "Mar", "Apr", "May", "Jun",
   "Jul", "Aug", "Sep", "Oct", "Nov", "Dec"]

/-- Python list indexing: a non-negative index reads from the front, a
negative index reads from the back, and anything out of range raises
(modelled as `none`). -/
def pyIndex (l : List α) (i : Int) : Option α :=
  if 0 ≤ i then l.get? i.toNat
  else if 0 ≤ (l.length : Int) + i then l.get? ((l.length : Int) + i).toNat
  else none

/-- The month-name lookup `[...][x-1]` applied to a FISCAL_MONTH value. -/
def monthName (x : Int) : Option String := pyIndex monthNames (x - 1)

/-- The seasonality frame: mean amount per fiscal month, with the looked-up
month name attached (`monthly_pattern` in the source). -/
def monthlyPattern (category_data : List Transaction) :
    List (Int × PyFloat × Option String) :=
  (groupMeans intLe (fun r => r.fiscal_month) category_data).map
    (fun p => (p.1, p.2, monthName p.1))

/-! ### Insight derivation -/

/-- Mean of the per-(fiscal_year, fiscal_month) sums
(`groupby(['FISCAL_YEAR','FISCAL_MONTH'])['AMOUNT'].sum().mean()`). -/
def avgMonthlyOf (rows : List Transaction) : PyFloat :=
  let s := groupSums ymLe (fun r => (r.fiscal_year, r.fiscal_month)) rows
  fdiv ((s.map Prod.snd).sum) (s.length : ℚ)

/-- `groupby('FISCAL_YEAR')['AMOUNT'].sum().sort_index()`: the per-year
totals of the analysis-category rows, years ascending. -/
def yearlyTotals (category_data : List Transaction) : List (Int × ℚ) :=
  groupSums intLe (fun r => r.fiscal_year) category_data

/-- The year-over-year growth figure of the single-department insight block:
computed only when more than one distinct year is present
(`if len(yearly_totals) > 1`), from the last two index entries
(`index[-1]`, `index[-2]`), as `((latest - previous) / previous) * 100` in
float arithmetic.  `none` means no growth line is emitted. -/
def yoyGrowth (category_data : List Transaction) : Option PyFloat :=
  match (yearlyTotals category_data).reverse with
  | latest :: previous :: _ =>
    some (extTimes100 (fdiv (latest.2 - previous.2) previous.2))
  | _ => none

/-- First-encountered maximum of an association list (pandas `idxmax` over a
series whose index is sorted, paired with `max`). -/
def argmaxFirst {κ : Type} : List (κ × ℚ) → Option (κ × ℚ)
  | [] => none
  | p :: l => some (l.foldl (fun best q => if best.2 < q.2 then q else best) p)

/-- The insight bullet list for a single selected department. -/
structure SingleDeptInsight where
  totalSpending : ℚ
  avgMonthly : PyFloat
  departmentFocus : String
  growth : Option PyFloat
deriving DecidableEq, Repr

/-- The insight bullet list for the "All" departments selection. -/
structure AllDeptInsight where
  totalSpending : ℚ
  avgMonthly : PyFloat
  topDepartment : Option (String × ℚ)
  departmentsAnalyzed : Nat
deriving DecidableEq, Repr

/-- The category-insight section: skipped entirely on empty category data,
else a single-department or an all-departments variant. -/
inductive CategoryInsight where
  | noData
  | singleDept (i : SingleDeptInsight)
  | allDepts (i : AllDeptInsight)
deriving DecidableEq, Repr

/-- The shared insight block of `main` (lines 1137-1172) and
`generate_complete_dashboard_html` (lines 368-404): restrict to
`analysis_category`, skip when empty, then branch on the department
selection. -/
def categoryInsightsFor (filtered_data : List Transaction)
    (selected_department : String) (analysis_category : String) :
    CategoryInsight :=
  let cat_data := filtered_data.filter
    (fun r => r.expenditure_category = analysis_category)
  if cat_data = [] then CategoryInsight.noData
  else if selected_department ≠ "All" then
    CategoryInsight.singleDept
      { totalSpending := (cat_data.map (fun r => r.amount)).sum
        avgMonthly := avgMonthlyOf cat_data
        departmentFocus := selected_department
        growth := yoyGrowth cat_data }
  else
    CategoryInsight.allDepts
      { totalSpending := (cat_data.map (fun r => r.amount)).sum
        avgMonthly := avgMonthlyOf cat_data
        topDepartment :=
          argmaxFirst (groupSums strLe (fun r => r.department_name) cat_data)
        departmentsAnalyzed :=
          ((cat_data.map (fun r => r.department_name)).dedup).length }

/-! ### Report assembly (`generate_complete_dashboard_html`) -/

/-- Descending comparison on transaction dates
(`sort_values('TRANSACTION_DATE', ascending=False)`). -/
def dateDesc (a b : Transaction) : Bool := decide (b.transaction_date ≤ a.transaction_date)

/-- The recent-transactions table source:
`filtered_data.sort_values('TRANSACTION_DATE', ascending=False).head(20)`. -/
def recentTransactions (filtered_data : List Transaction) : List Transaction :=
  (sortBy dateDesc filtered_data).take 20

/-- The data content of the assembled HTML document. -/
structure Report where
  user : String
  deptContext : String
  yearsAnalyzed : List Int
  categoriesSelected : List String
  generatedAt : String
  totalSpending : ℚ
  avgMonthly : PyFloat
  transactionCount : Nat
  uniqueCategories : Nat
  trendChart : Chart (List TrendPoint)
  categoryChart : Chart (List (String × ℚ))
  deptChart : Option (Chart (List ((String × Int) × ℚ)))
  categoryInsight : CategoryInsight
  recentRows : List Transaction
deriving DecidableEq, Repr

/-- The report assembly.  The Python function reads the wall clock once, for
the "Generated:" line; the embedding passes that reading in as `now`.  The
`finance_data` argument is accepted (as in the source signature) but unused
by the body. -/
def generate_complete_dashboard_html (current_user : String)
    (filtered_data finance_data : List Transaction)
    (selected_department : String) (selected_years : List Int)
    (selected_categories : List String) (analysis_category : String)
    (now : String) : Report :=
  { user := current_user
    deptContext :=
      if selected_department ≠ "All" then selected_department else "All Departments"
    yearsAnalyzed := sortBy intLe selected_years
    categoriesSelected := selected_categories
    generatedAt := now
    totalSpending := (filtered_data.map (fun r => r.amount)).sum
    avgMonthly := avgMonthlyOf filtered_data
    transactionCount := filtered_data.length
    uniqueCategories := ((filtered_data.map (fun r => r.expenditure_category)).dedup).length
    trendChart := create_trend_chart filtered_data selected_categories
    categoryChart := create_category_breakdown filtered_data selected_years
    deptChart :=
      if 1 < (visibleDepartments filtered_data).length
      then some (create_department_comparison filtered_data) else none
    categoryInsight :=
      categoryInsightsFor filtered_data selected_department analysis_category
    recentRows := recentTransactions filtered_data }

/-! ### Sample rows (the concrete scenario of the specification) -/

/-- A Marketing software-subscriptions transaction in fiscal 2022. -/
def txMkt2022 : Transaction :=
  { department_name := "Marketing", department_code := "MKT"
    transaction_date := 738226, expenditure_category := "software subscriptions"
    amount := 1000, fiscal_year := 2022, fiscal_month := 3
    director_name := some "Dana", director_start_date := 737000
    is_current_director := true }

/-- A Marketing software-subscriptions transaction in fiscal 2023. -/
def txMkt2023 : Transaction :=
  { txMkt2022 with transaction_date := 738591, amount := 1600, fiscal_year := 2023 }

/-- A zero-amount Marketing software-subscriptions transaction in fiscal
2022 (drives the previous-year-total-zero case). -/
def txZero2022 : Transaction :=
  { txMkt2022 with transaction_date := 738200, amount := 0 }

/-! ### The claims -/

/-- C2: `generate_complete_dashboard_html` is deterministic given all its
inputs; its only wall-clock dependency is the "Generated:" timestamp, which
enters the document through the isolated `now` argument alone, so two runs
that differ only in the clock produce documents differing only in the
`generatedAt` field. -/
theorem report_deterministic_modulo_clock (u : String) (f fd : List Transaction)
    (d : String) (ys : List Int) (cs : List String) (ac : String)
    (n1 n2 : String) :
    (generate_complete_dashboard_html u f fd d ys cs ac n1).generatedAt = n1 ∧
    { generate_complete_dashboard_html u f fd d ys cs ac n1 with generatedAt := n2 }
      = generate_complete_dashboard_html u f fd d ys cs ac n2 :=
  ⟨rfl, rfl⟩

/-- C3: with a non-empty year selection and a non-empty category selection,
a row is in the filtered set iff it is an input row whose fiscal year is
selected, whose expenditure category is selected, and whose department
matches the selection or the selection is "All". -/
theorem filter_membership_conjunction (T : List Transaction) (S : Selection)
    (r : Transaction) (hy : S.years ≠ []) (hc : S.categories ≠ []) :
    r ∈ filterTransactions T S ↔
      r ∈ T ∧ r.fiscal_year ∈ S.years ∧ r.expenditure_category ∈ S.categories ∧
        (r.department_name = S.department ∨ S.department = "All") := by
  rw [filterTransactions_eq_filter, List.mem_filter, selPred]
  simp only [hy, hc, decide_False, Bool.false_or, Bool.and_eq_true, Bool.or_eq_true,
    decide_eq_true_eq]
  tauto

theorem filter_membership_conjunction_witness :
    ([2022, 2023] : List Int) ≠ [] ∧ (["software subscriptions"] : List String) ≠ [] ∧
    (txMkt2022 ∈ filterTransactions [txMkt2022]
        ⟨[2022, 2023], ["software subscriptions"], "Marketing"⟩ ↔
      txMkt2022 ∈ [txMkt2022] ∧ (2022 : Int) ∈ ([2022, 2023] : List Int) ∧
        "software subscriptions" ∈ (["software subscriptions"] : List String) ∧
        ("Marketing" = "Marketing" ∨ ("Marketing" : String) = "All")) :=
  ⟨by decide, by decide,
    filter_membership_conjunction [txMkt2022]
      ⟨[2022, 2023], ["software subscriptions"], "Marketing"⟩ txMkt2022
      (by decide) (by decide)⟩

/-- C8: applying the filter pipeline twice with the same Selection gives the
same result as applying it once. -/
theorem filter_idempotent (T : List Transaction) (S : Selection) :
    filterTransactions (filterTransactions T S) S = filterTransactions T S := by
  simp only [filterTransactions_eq_filter, List.filter_filter]
  exact List.filter_congr (fun a _ => Bool.and_self _)

/-- C4: on a non-empty frame the category breakdown is produced, and the sum
of its per-category values equals the sum of `amount` over the (possibly
year-restricted) input set, exactly. -/
theorem category_breakdown_preserves_total (df : List Transaction)
    (yf : List Int) (h : df ≠ []) :
    ∃ out, create_category_breakdown df yf = Chart.data out ∧
      (out.map Prod.snd).sum = ((yearRestrict df yf).map (fun r => r.amount)).sum := by
  unfold create_category_breakdown
  rw [if_neg h]
  exact ⟨_, rfl, groupSums_sum _ _ _⟩

theorem category_breakdown_preserves_total_witness :
    ([txMkt2022, txMkt2023] : List Transaction) ≠ [] ∧
    ∃ out, create_category_breakdown [txMkt2022, txMkt2023] [] = Chart.data out ∧
      (out.map Prod.snd).sum
        = ((yearRestrict [txMkt2022, txMkt2023] []).map (fun r => r.amount)).sum :=
  ⟨by decide, category_breakdown_preserves_total [txMkt2022, txMkt2023] [] (by decide)⟩

/-- C9: the report's recent-transactions table has at most 20 rows, is
sorted by transaction date descending, and draws only rows of the filtered
transaction set. -/
theorem recent_transactions_capped_sorted (u : String) (f fd : List Transaction)
    (d : String) (ys : List Int) (cs : List String) (ac now : String) :
    (generate_complete_dashboard_html u f fd d ys cs ac now).recentRows.length ≤ 20 ∧
    List.Pairwise (fun a b => b.transaction_date ≤ a.transaction_date)
      (generate_complete_dashboard_html u f fd d ys cs ac now).recentRows ∧
    ∀ r ∈ (generate_complete_dashboard_html u f fd d ys cs ac now).recentRows, r ∈ f := by
  have hrr : (generate_complete_dashboard_html u f fd d ys cs ac now).recentRows
      = recentTransactions f := rfl
  rw [hrr, recentTransactions]
  refine ⟨List.length_take_le _ _, ?_, ?_⟩
  · have hs : List.Pairwise (fun a b => dateDesc a b = true) (sortBy dateDesc f) := by
      refine pairwise_sortBy ?_ ?_ f
      · intro a b c hab hbc
        simp only [dateDesc, decide_eq_true_eq] at *
        omega
      · intro a b
        simp only [dateDesc, decide_eq_true_eq]
        omega
    have ht : List.Pairwise (fun a b => dateDesc a b = true)
        ((sortBy dateDesc f).take 20) := hs.sublist (List.take_sublist _ _)
    exact ht.imp (fun h => by simpa [dateDesc] using h)
  · intro r hr
    have : r ∈ sortBy dateDesc f := (List.take_sublist _ _).mem hr
    exact mem_sortBy.mp this

theorem length_le_one_of_all_eq {l : List α} (hnd : l.Nodup) (d0 : α)
    (h : ∀ x ∈ l, x = d0) : l.length ≤ 1 := by
  match l, hnd, h with
  | [], _, _ => simp
  | [a], _, _ => simp
  | a :: b :: t, hnd, h =>
    exfalso
    have ha := h a (List.mem_cons_self a (b :: t))
    have hb := h b (List.mem_cons_of_mem a (List.mem_cons_self b t))
    rw [List.nodup_cons] at hnd
    exact hnd.1 ((ha.trans hb.symm) ▸ List.mem_cons_self b t)

theorem map_trendpoint_keys (gs : List ((Int × Int) × ℚ)) :
    ((gs.map (fun p => ({ year := p.1.1, month := p.1.2, day := 1, amount := p.2 } : TrendPoint))).map (fun p => (p.year, p.month))) = gs.map Prod.fst := by
  rw [List.map_map]
  exact List.map_congr_left (fun p _ => rfl)

/-- C5: the trend chart groups the (optionally category-restricted) rows by
(fiscal_year, fiscal_month) and sums `amount`, stamping the first day of the
month as the date; there is exactly one point per distinct (year, month) of
the restricted input, and an empty input frame yields the "No data
available" sentinel instead of an error. -/
theorem trend_chart_groups_by_year_month (df : List Transaction)
    (cf : List String) :
    (df = [] → create_trend_chart df cf = Chart.noData) ∧
    (df ≠ [] → ∃ pts, create_trend_chart df cf = Chart.data pts ∧
      (pts.map (fun p => (p.year, p.month))).Nodup ∧
      (∀ y m : Int, (y, m) ∈ pts.map (fun p => (p.year, p.month)) ↔
        ∃ r ∈ catRestrict df cf, r.fiscal_year = y ∧ r.fiscal_month = m) ∧
      ∀ p ∈ pts, p.day = 1 ∧
        p.amount = (((catRestrict df cf).filter
          (fun r => r.fiscal_year = p.year ∧ r.fiscal_month = p.month)).map
            (fun r => r.amount)).sum) := by
  constructor
  · intro h
    rw [create_trend_chart, if_pos h]
  · intro h
    rw [create_trend_chart, if_neg h]
    set d := catRestrict df cf with hd
    refine ⟨_, rfl, ?_, ?_, ?_⟩
    · rw [map_trendpoint_keys]
      exact groupSums_keys_nodup _ _ _
    · intro y m
      rw [map_trendpoint_keys, groupSums_mem_keys]
      simp only [Prod.mk.injEq]
    · intro p hp
      obtain ⟨q, hq, hpq⟩ := List.mem_map.mp hp
      refine ⟨by rw [← hpq], ?_⟩
      have hamt := mem_groupSums hq
      have hfeq : d.filter
            (fun r => (r.fiscal_year, r.fiscal_month) = q.1)
          = d.filter (fun r => r.fiscal_year = p.year ∧ r.fiscal_month = p.month) := by
        refine List.filter_congr (fun r _ => ?_)
        rw [← hpq]
        simp [Prod.ext_iff]
      rw [← hpq]
      show q.2 = _
      rw [hamt, hfeq]
      rw [← hpq]

theorem trend_chart_groups_by_year_month_witness :
    create_trend_chart ([] : List Transaction) [] = Chart.noData ∧
    (∃ pts, create_trend_chart [txMkt2022] [] = Chart.data pts ∧
      (pts.map (fun p => (p.year, p.month))).Nodup ∧
      (∀ y m : Int, (y, m) ∈ pts.map (fun p => (p.year, p.month)) ↔
        ∃ r ∈ catRestrict [txMkt2022] [], r.fiscal_year = y ∧ r.fiscal_month = m) ∧
      ∀ p ∈ pts, p.day = 1 ∧
        p.amount = (((catRestrict [txMkt2022] []).filter
          (fun r => r.fiscal_year = p.year ∧ r.fiscal_month = p.month)).map
            (fun r => r.amount)).sum) :=
  ⟨(trend_chart_groups_by_year_month [] []).1 rfl,
   (trend_chart_groups_by_year_month [txMkt2022] []).2 (by decide)⟩

/-- C6: when exactly one department is visible, the department comparison is
omitted everywhere: the `main` guard evaluates false, and in the assembled
report (whose filtered frame only draws on visible rows) the comparison
section is absent (`deptChart = none`), not rendered empty. -/
theorem dept_comparison_omitted (finance filtered : List Transaction)
    (h1 : (visibleDepartments finance).length = 1)
    (hsub : ∀ r ∈ filtered, r ∈ finance)
    (u d : String) (ys : List Int) (cs : List String) (ac now : String) :
    showDeptComparison finance = false ∧
    (generate_complete_dashboard_html u filtered finance d ys cs ac now).deptChart
      = none := by
  have hdd : ((finance.map (fun r => r.department_name)).dedup).length = 1 := by
    rw [visibleDepartments, length_sortBy] at h1
    exact h1
  obtain ⟨d0, hd0⟩ := List.length_eq_one.mp hdd
  have hall : ∀ r ∈ finance, r.department_name = d0 := by
    intro r hr
    have hm : r.department_name ∈ (finance.map (fun r => r.department_name)).dedup :=
      List.mem_dedup.mpr (List.mem_map.mpr ⟨r, hr, rfl⟩)
    rw [hd0] at hm
    simpa using hm
  have hflt : (visibleDepartments filtered).length ≤ 1 := by
    rw [visibleDepartments, length_sortBy]
    refine length_le_one_of_all_eq (List.nodup_dedup _) d0 ?_
    intro x hx
    obtain ⟨r, hr, hrx⟩ := List.mem_map.mp (List.mem_dedup.mp hx)
    rw [← hrx]
    exact hall r (hsub r hr)
  constructor
  · rw [showDeptComparison, h1]
    rfl
  · have hproj :
        (generate_complete_dashboard_html u filtered finance d ys cs ac now).deptChart
          = if 1 < (visibleDepartments filtered).length
            then some (create_department_comparison filtered) else none := rfl
    rw [hproj, if_neg (by omega)]

theorem dept_comparison_omitted_witness :
    (visibleDepartments [txMkt2022]).length = 1 ∧
    showDeptComparison [txMkt2022] = false ∧
    (generate_complete_dashboard_html "MARKETING_DIRECTOR" [txMkt2022] [txMkt2022]
      "Marketing" [2022] ["software subscriptions"] "software subscriptions"
      "March 01, 2024 at 09:00 AM").deptChart = none :=
  ⟨by decide,
   (dept_comparison_omitted [txMkt2022] [txMkt2022] (by decide) (fun _ hr => hr)
     "MARKETING_DIRECTOR" "Marketing" [2022] ["software subscriptions"]
     "software subscriptions" "March 01, 2024 at 09:00 AM").1,
   (dept_comparison_omitted [txMkt2022] [txMkt2022] (by decide) (fun _ hr => hr)
     "MARKETING_DIRECTOR" "Marketing" [2022] ["software subscriptions"]
     "software subscriptions" "March 01, 2024 at 09:00 AM").2⟩

theorem yearlyTotals_length (cd : List Transaction) :
    (yearlyTotals cd).length
      = ((cd.map (fun r => r.fiscal_year)).dedup).length := by
  rw [yearlyTotals, groupSums, List.length_map, length_sortBy]

theorem yoyGrowth_eq_none {cd : List Transaction}
    (h : ((cd.map (fun r => r.fiscal_year)).dedup).length < 2) :
    yoyGrowth cd = none := by
  have hl : (yearlyTotals cd).reverse.length < 2 := by
    rw [List.length_reverse, yearlyTotals_length]
    exact h
  unfold yoyGrowth
  cases h2 : (yearlyTotals cd).reverse with
  | nil => rfl
  | cons a t =>
    cases t with
    | nil => rfl
    | cons b t2 =>
      exfalso
      rw [h2] at hl
      simp only [List.length_cons] at hl
      omega

/-- C7: for a single selected department, when the analysis-category rows
contain fewer than two distinct fiscal years, the insight block is still
produced without an exception and carries no year-over-year growth figure
(the growth is `none`, i.e. "undetermined"). -/
theorem yoy_growth_needs_two_years (filtered : List Transaction)
    (dept cat : String) (hdept : dept ≠ "All")
    (hne : filtered.filter (fun r => r.expenditure_category = cat) ≠ [])
    (hyr : (((filtered.filter (fun r => r.expenditure_category = cat)).map
        (fun r => r.fiscal_year)).dedup).length < 2) :
    ∃ i, categoryInsightsFor filtered dept cat = CategoryInsight.singleDept i ∧
      i.growth = none := by
  refine ⟨⟨((filtered.filter (fun r => r.expenditure_category = cat)).map
        (fun r => r.amount)).sum,
      avgMonthlyOf (filtered.filter (fun r => r.expenditure_category = cat)),
      dept,
      yoyGrowth (filtered.filter (fun r => r.expenditure_category = cat))⟩,
    ?_, yoyGrowth_eq_none hyr⟩
  unfold categoryInsightsFor
  rw [if_neg hne, if_pos hdept]

theorem yoy_growth_needs_two_years_witness :
    ("Marketing" : String) ≠ "All" ∧
    [txMkt2022].filter (fun r => r.expenditure_category = "software subscriptions") ≠ [] ∧
    ((([txMkt2022].filter
        (fun r => r.expenditure_category = "software subscriptions")).map
      (fun r => r.fiscal_year)).dedup).length < 2 ∧
    ∃ i, categoryInsightsFor [txMkt2022] "Marketing" "software subscriptions"
        = CategoryInsight.singleDept i ∧ i.growth = none :=
  ⟨by decide, by decide, by decide,
    yoy_growth_needs_two_years [txMkt2022] "Marketing" "software subscriptions"
      (by decide) (by decide) (by decide)⟩

/-- C10: the month-name lookup maps fiscal_month `x` in 1..12 to the `x`-th
calendar month name via list index `x-1`, totally (no exception); every
seasonality row derived from transactions with in-range months gets a name;
and a fiscal_month of 0 silently yields "Dec" through Python's negative
indexing instead of failing. -/
theorem month_name_lookup :
    (∀ x : Int, 1 ≤ x → x ≤ 12 →
      monthName x = monthNames.get? (x - 1).toNat ∧ (monthName x).isSome = true) ∧
    monthName 0 = some "Dec" ∧
    ∀ rows : List Transaction,
      (∀ r ∈ rows, 1 ≤ r.fiscal_month ∧ r.fiscal_month ≤ 12) →
      ∀ e ∈ monthlyPattern rows, e.2.2.isSome = true := by
  have hname : ∀ x : Int, 1 ≤ x → x ≤ 12 → (monthName x).isSome = true := by
    intro x h1 h2
    rw [monthName, pyIndex, if_pos (by omega : (0:Int) ≤ x - 1)]
    have hlt : (x - 1).toNat < monthNames.length := by
      rw [show monthNames.length = 12 from rfl]
      omega
    rw [List.get?_eq_get hlt]
    rfl
  refine ⟨?_, by decide, ?_⟩
  · intro x h1 h2
    refine ⟨?_, hname x h1 h2⟩
    rw [monthName, pyIndex, if_pos (by omega : (0:Int) ≤ x - 1)]
  · intro rows hb e he
    rw [monthlyPattern] at he
    obtain ⟨p, hp, hpe⟩ := List.mem_map.mp he
    rw [groupMeans] at hp
    obtain ⟨k, hk, hkp⟩ := List.mem_map.mp hp
    obtain ⟨r, hr, hrk⟩ := List.mem_map.mp (List.mem_dedup.mp (mem_sortBy.mp hk))
    obtain ⟨hb1, hb2⟩ := hb r hr
    rw [← hpe, ← hkp]
    show (monthName k).isSome = true
    rw [← hrk]
    exact hname _ hb1 hb2

theorem month_name_lookup_witness :
    (monthName 3 = monthNames.get? ((3:Int) - 1).toNat ∧ (monthName 3).isSome = true) ∧
    (∀ e ∈ monthlyPattern [txMkt2022], e.2.2.isSome = true) :=
  ⟨month_name_lookup.1 3 (by decide) (by decide),
   month_name_lookup.2.2 [txMkt2022] (by decide)⟩

/-- C1: the single-department year-over-year growth computation has no
division-by-zero guard: its only guard is `len(yearly_totals) > 1`.  With
previous-year total 0 (a zero-amount 2022 row) and a positive latest-year
total, the insight block emits a growth figure equal to float infinity
(`(1600 - 0) / 0 = inf` under numpy float semantics with warnings
suppressed) instead of an explicit "undefined growth" result. -/
theorem yoy_growth_inf_on_zero_previous_year :
    ∃ i, categoryInsightsFor [txZero2022, txMkt2023] "Marketing"
        "software subscriptions" = CategoryInsight.singleDept i ∧
      i.growth = some PyFloat.inf := by
  have hcat : [txZero2022, txMkt2023].filter
      (fun r => r.expenditure_category = "software subscriptions")
      = [txZero2022, txMkt2023] := by decide
  have hkeys : sortBy intLe
      (([txZero2022, txMkt2023].map (fun r => r.fiscal_year)).dedup)
      = [2022, 2023] := by decide
  have hf22 : [txZero2022, txMkt2023].filter (fun r => r.fiscal_year = (2022:Int))
      = [txZero2022] := by decide
  have hf23 : [txZero2022, txMkt2023].filter (fun r => r.fiscal_year = (2023:Int))
      = [txMkt2023] := by decide
  have hgrow : yoyGrowth [txZero2022, txMkt2023] = some PyFloat.inf := by
    rw [yoyGrowth, yearlyTotals, groupSums, hkeys]
    simp only [List.map_cons, List.map_nil, hf22, hf23, List.reverse_cons,
      List.reverse_nil, List.nil_append, List.cons_append, List.singleton_append]
    show some (extTimes100 (fdiv (txMkt2023.amount + 0 - (txZero2022.amount + 0))
      (txZero2022.amount + 0))) = some PyFloat.inf
    have h0 : txZero2022.amount + 0 = (0:ℚ) := by
      show (0:ℚ) + 0 = 0
      norm_num
    have h16 : txMkt2023.amount + 0 = (1600:ℚ) := by
      show (1600:ℚ) + 0 = 1600
      norm_num
    rw [h0, h16, fdiv, if_pos rfl, if_pos (by norm_num : (0:ℚ) < 1600 - 0)]
    rfl
  have hne : [txZero2022, txMkt2023].filter
      (fun r => r.expenditure_category = "software subscriptions") ≠ [] := by decide
  refine ⟨⟨(([txZero2022, txMkt2023].filter
        (fun r => r.expenditure_category = "software subscriptions")).map
        (fun r => r.amount)).sum,
      avgMonthlyOf ([txZero2022, txMkt2023].filter
        (fun r => r.expenditure_category = "software subscriptions")),
      "Marketing",
      yoyGrowth ([txZero2022, txMkt2023].filter
        (fun r => r.expenditure_category = "software subscriptions"))⟩,
    ?_, ?_⟩
  · unfold categoryInsightsFor
    rw [if_neg hne, if_pos (by decide : ("Marketing":String) ≠ "All")]
  · show yoyGrowth ([txZero2022, txMkt2023].filter
      (fun r => r.expenditure_category = "software subscriptions")) = some PyFloat.inf
    rw [hcat, hgrow]
